import Mathlib

/-!
Verification of the trafficlight client (src/scripts/trafficlight.ts) and its
cypress launcher variant (src/unnamed/part_001) against the natural-language
specification.

The embedding models:
  - the action dispatcher runAction as a mapping from an action name and its
    data bag to a straight-line script of browser steps paired with the
    returned completion token (trafficlight.ts lines 119-254);
  - the browser-automation layer as an oracle saying which CSS selectors a
    waitForSelector finds in time and which XPath text lookups match (the
    helpers get/contains/click/type, trafficlight.ts lines 120-155);
  - the poll loop body and loop (trafficlight.ts lines 78-117);
  - the register call of both back-end variants (trafficlight.ts 36-50 and
    part_001 lines 20-36) and the args dispatch of the launcher
    (part_001 lines 99-111).

Machine integers play no role; HTTP statuses are Nat. JavaScript values of
type string-or-undefined are Option String, with undefined as none.
-/

/-- Observable events produced while executing an action: DOM operations,
the idle sleep, and the operator-facing warning of the default branch. -/
inductive Ev
  | find (sel : String)
  | xlookup (label : String)
  | click (target : String)
  | typeText (target text : String)
  | press (target key : String)
  | goto (hash : String)
  | sleep (ms : Nat)
  | warn (action : Option String)
deriving Repr, DecidableEq

/-- Oracle for the browser-automation layer: found sel says whether
waitForSelector resolves sel within its timeout, xfound label says whether
the XPath text-contains lookup of the contains helper matches an element. -/
structure Browser where
  found : String → Bool
  xfound : String → Bool

/-- JavaScript truthiness of a value of type string-or-undefined, as used by
the guard if (result) in the poll loop and if (data[topic]) in create_room:
undefined and the empty string are falsy, every other string is truthy. -/
def truthy : Option String → Bool
  | none => false
  | some s => s != ""

/-- The click helper (trafficlight.ts 140-145): if the awaited element is
null nothing happens, otherwise the element is clicked. -/
def clickEl : Option String → List Ev
  | none => []
  | some el => [.click el]

/-- The type helper (trafficlight.ts 147-155): if the awaited element is
null nothing happens, otherwise the text is typed and, when enter is set,
the Enter key pressed. -/
def typeEl (text : String) (el : Option String) (enter : Bool) : List Ev
  := match el with
  | none => []
  | some e => [.typeText e text] ++ (if enter then [.press e "Enter"] else [])

/-- One step of an action script, mirroring the call shapes that occur in
the switch of runAction:
  setHash models setLocationHash (a page.goto with the new hash);
  clickSel models click(get(sel)) and the equivalent (await get(sel))!.click();
  typeSel models type(text, get(sel), enter);
  clickContains models click(contains(label, get(rootSel)));
  sleep models the awaited setTimeout promise of the idle case;
  warn models the console.log of the default branch. -/
inductive Step
  | setHash (hash : String)
  | clickSel (sel : String)
  | typeSel (text : String) (sel : String) (enter : Bool)
  | clickContains (label : String) (rootSel : String)
  | sleep (ms : Nat)
  | warn (action : Option String)
deriving Repr, DecidableEq

/-- Execution of a single step against the browser oracle. A waitForSelector
that does not find its selector raises (puppeteer timeout); the contains
helper instead resolves to undefined when its XPath matches nothing, so the
click helper silently skips (trafficlight.ts 135-145). -/
def execStep (b : Browser) : Step → Except String (List Ev)
  | .setHash h => .ok [.goto h]
  | .clickSel sel =>
      if b.found sel then .ok ([.find sel] ++ clickEl (some sel))
      else .error ("timeout waiting for " ++ sel)
  | .typeSel text sel enter =>
      if b.found sel then .ok ([.find sel] ++ typeEl text (some sel) enter)
      else .error ("timeout waiting for " ++ sel)
  | .clickContains label rootSel =>
      if b.found rootSel then
        .ok ([.find rootSel, .xlookup label] ++
          clickEl (if b.xfound label then some ("contains:" ++ label) else none))
      else .error ("timeout waiting for " ++ rootSel)
  | .sleep ms => .ok [.sleep ms]
  | .warn a => .ok [.warn a]

/-- Sequential execution of a script: steps run in order, the first raising
step aborts the rest (awaits propagate rejections), events before the abort
are kept. -/
def execSteps (b : Browser) : List Step → Except String Unit × List Ev
  | [] => (.ok (), [])
  | s :: rest =>
      match execStep b s with
      | .error e => (.error e, [])
      | .ok evs =>
          match execSteps b rest with
          | (r, evs2) => (r, evs ++ evs2)

/-- The data bag of an ActionRequest, restricted to the fields the dispatch
cases read. The topic field keeps its string-or-undefined nature because
create_room tests its truthiness. -/
structure ActionData where
  homeserverLocal : String
  username : String
  password : String
  name : String
  topic : Option String
  message : String
  historyVisibility : String
  user : String
deriving Repr, DecidableEq

/-- The switch of runAction (trafficlight.ts 165-253): each supported action
maps to its fixed script of browser steps and the completion token it
returns; idle maps to a five second sleep and no token; every other action,
including a missing action field (none), maps to an operator warning and no
token. -/
def runAction (action : Option String) (data : ActionData) :
    List Step × Option String :=
  match action with
  | some "register" =>
      ([ .setHash "#/register",
         .clickSel ".mx_ServerPicker_change",
         .typeSel data.homeserverLocal ".mx_ServerPickerDialog_otherHomeserver" false,
         .clickSel ".mx_ServerPickerDialog_continue",
         .typeSel data.username "#mx_RegistrationForm_username" false,
         .typeSel data.password "#mx_RegistrationForm_password" false,
         .typeSel data.password "#mx_RegistrationForm_passwordConfirm" false,
         .clickSel ".mx_Login_submit",
         .clickSel ".mx_UseCaseSelection_skip > .mx_AccessibleButton" ],
       some "registered")
  | some "login" =>
      ([ .setHash "#/login",
         .clickSel ".mx_ServerPicker_change",
         .typeSel data.homeserverLocal ".mx_ServerPickerDialog_otherHomeserver" false,
         .clickSel ".mx_ServerPickerDialog_continue",
         .typeSel data.username "#mx_LoginForm_username" false,
         .typeSel data.password "#mx_LoginForm_password" false,
         .clickSel ".mx_Login_submit" ],
       some "loggedin")
  | some "start_crosssign" =>
      ([ .clickSel ".mx_CompleteSecurity_actionRow > .mx_AccessibleButton" ],
       some "started_crosssign")
  | some "accept_crosssign" =>
      ([ .clickSel ".mx_Toast_buttons > .mx_AccessibleButton_kind_primary",
         .clickSel ".mx_VerificationPanel_QRPhase_startOption > .mx_AccessibleButton" ],
       some "accepted_crosssign")
  | some "verify_crosssign_emoji" =>
      ([ .clickSel ".mx_VerificationShowSas_buttonRow > .mx_AccessibleButton_kind_primary",
         .clickSel ".mx_UserInfo_container > .mx_AccessibleButton" ],
       some "verified_crosssign")
  | some "idle" => ([ .sleep 5000 ], none)
  | some "create_room" =>
      ([ .clickSel ".mx_RoomListHeader_plusButton",
         .clickContains "New room" ".mx_ContextualMenu",
         .typeSel data.name ".mx_CreateRoomDialog_name input" false ]
       ++ (if truthy data.topic then
            [ .typeSel (data.topic.getD "") ".mx_CreateRoomDialog_topic input" false ]
          else [])
       ++ [ .clickSel ".mx_Dialog_primary" ],
       some "room_created")
  | some "send_message" =>
      ([ .typeSel data.message ".mx_SendMessageComposer div[contenteditable=true]" true ],
       some "message_sent")
  | some "change_room_history_visibility" =>
      ([ .clickSel ".mx_RightPanel_roomSummaryButton",
         .clickSel ".mx_RoomSummaryCard_icon_settings",
         .clickSel "[data-testid=\x27settings-tab-ROOM_SECURITY_TAB\x27]",
         .clickSel ("label:has(#historyVis-" ++ data.historyVisibility),
         .clickSel ".mx_Dialog_cancelButton",
         .clickSel "[data-test-id=base-card-close-button]" ],
       some "changed")
  | some "invite_user" =>
      ([ .clickSel ".mx_RightPanel_roomSummaryButton",
         .clickSel ".mx_RoomSummaryCard_icon_people",
         .clickSel ".mx_MemberList_invite",
         .typeSel data.user ".mx_InviteDialog_addressBar input" true,
         .clickSel ".mx_InviteDialog_goButton" ],
       some "invited")
  | _ => ([ .warn action ], none)

/-- Dispatch of one action: run its script; on success the completion token
of the case is returned, a raising step rejects the whole runAction call. -/
def dispatch (b : Browser) (action : Option String) (data : ActionData) :
    Except String (Option String) × List Ev :=
  match runAction action data with
  | (steps, tok) =>
      match execSteps b steps with
      | (.ok _, evs) => (.ok tok, evs)
      | (.error e, evs) => (.error e, evs)

/-- The result variable of the loop body after the try/catch around
runAction (trafficlight.ts 93-99): the token of a successful dispatch, or
the literal string error when the dispatch raised. -/
def caughtResult (b : Browser) (action : Option String) (d : ActionData) :
    Option String :=
  match dispatch b action d with
  | (.ok r, _) => r
  | (.error _, _) => some "error"

/-- Events of one poll cycle as seen at the loop level: the GET to the poll
endpoint, the invocation of runAction, and the POST of a response body to
the respond endpoint. -/
inductive LoopEv
  | poll
  | dispatched (action : Option String)
  | respond (body : String)
deriving Repr, DecidableEq

/-- Scripted input of one poll cycle: the HTTP status and parsed body of the
poll (an action field that may be missing, plus the data bag), the browser
behaviour during the dispatch, and the HTTP status of a respond POST should
one be made. -/
structure CycleInput where
  pollStatus : Nat
  action : Option String
  data : ActionData
  browser : Browser
  respondStatus : Nat

/-- One iteration of the while loop (trafficlight.ts 83-116). Returns the
value of shouldExit for the next test of the loop guard, or the raised
error: a non-200 poll raises, an exit action only sets shouldExit, any
other action is dispatched with its failure caught as the result error,
and the respond POST happens exactly when the result is truthy, raising on
a non-200 status. -/
def pollCycle (inp : CycleInput) : Except String Bool × List LoopEv :=
  if inp.pollStatus ≠ 200 then
    (.error ("poll failed with " ++ toString inp.pollStatus), [.poll])
  else if inp.action = some "exit" then
    (.ok true, [.poll])
  else
    let result := caughtResult inp.browser inp.action inp.data
    if truthy result then
      if inp.respondStatus ≠ 200 then
        (.error ("respond failed with " ++ toString inp.respondStatus),
         [.poll, .dispatched inp.action, .respond (result.getD "")])
      else
        (.ok false, [.poll, .dispatched inp.action, .respond (result.getD "")])
    else
      (.ok false, [.poll, .dispatched inp.action])

/-- The poll loop run against a finite script of poll cycles: it stops with
ok when a cycle sets shouldExit, propagates the first raised error, and
otherwise keeps polling (an exhausted script models the session still
waiting on its next poll). -/
def pollLoop : List CycleInput → Except String Unit × List LoopEv
  | [] => (.ok (), [])
  | inp :: rest =>
      match pollCycle inp with
      | (.error e, evs) => (.error e, evs)
      | (.ok true, evs) => (.ok (), evs)
      | (.ok false, evs) =>
          match pollLoop rest with
          | (r, evs2) => (r, evs ++ evs2)

/-- Number of respond POSTs in a list of loop events. -/
def respondCount (evs : List LoopEv) : Nat :=
  (evs.filter fun e => match e with | .respond _ => true | _ => false).length

/-- Loop events visible to the control server: its own endpoints being hit
(poll GETs and respond POSTs); the dispatched marker is client internal. -/
def serverView (evs : List LoopEv) : List LoopEv :=
  evs.filter fun e => match e with | .dispatched _ => false | _ => true

/-- Shape of the HTTP request a register call sends. -/
structure HttpRequest where
  url : String
  method : String
  bodyType : String
  bodyVersion : String
deriving Repr, DecidableEq

/-- The request built by registerAsClient (trafficlight.ts 36-44): a POST of
the JSON body with fields type element-web and version UNKNOWN to the
register endpoint of the client session. -/
def registerRequest (trafficlightUrl uuid : String) : HttpRequest :=
  { url := trafficlightUrl ++ "/client/" ++ uuid ++ "/register",
    method := "POST",
    bodyType := "element-web",
    bodyVersion := "UNKNOWN" }

/-- The request built by setupPromise of the launcher variant (part_001
lines 20-28): same endpoint, method and body as registerRequest. -/
def setupRequest (trafficlightUrl uuid : String) : HttpRequest :=
  { url := trafficlightUrl ++ "/client/" ++ uuid ++ "/register",
    method := "POST",
    bodyType := "element-web",
    bodyVersion := "UNKNOWN" }

/-- Failure of a register call, carrying the HTTP status the server sent. -/
inductive RegistrationError
  | badStatus (status : Nat)
deriving Repr, DecidableEq

/-- Status handling of registerAsClient (trafficlight.ts 45-49): any status
other than 200 throws an error carrying that status. -/
def registerAsClient (status : Nat) : Except RegistrationError Unit :=
  if status ≠ 200 then .error (.badStatus status) else .ok ()

/-- Status handling of setupPromise (part_001 lines 29-34): identical. -/
def setupPromise (status : Nat) : Except RegistrationError Unit :=
  if status ≠ 200 then .error (.badStatus status) else .ok ()

/-- Outcome of the args dispatch at the bottom of the launcher variant. -/
inductive LauncherOutcome
  | runForever
  | openOnce
  | exitCode (code : Nat) (message : String)
deriving Repr, DecidableEq

/-- The args dispatch of the launcher variant (part_001 lines 99-111):
argument run starts the run-forever loop, open starts the one-shot UI run,
anything else (a missing first argument included) logs a diagnostic and
exits the process with code 1. The argument list models process.argv after
slicing off node and the script path; head gives args[0], with undefined
rendered as in JavaScript string concatenation. -/
def launcherMain (args : List String) : LauncherOutcome :=
  match args.head? with
  | some "run" => .runForever
  | some "open" => .openOnce
  | a =>
      .exitCode 1
        ("No idea what " ++ (a.getD "undefined") ++
         "means (i understand \"run\" to run continually, \"open\" to launch the UI)")

deriving instance DecidableEq for Except

/-- The ten action names the switch of runAction has a case for. -/
def dispatchActions : List String :=
  ["register", "login", "start_crosssign", "accept_crosssign",
   "verify_crosssign_emoji", "idle", "create_room", "send_message",
   "change_room_history_visibility", "invite_user"]

/-- Action names with a meaning to the client: the dispatch cases plus the
exit action, which the poll loop consumes before dispatch. -/
def protocolActions : List String := dispatchActions ++ ["exit"]

/-- The action names that return a completion token, paired with their
tokens, in source order of the switch. -/
def supportedPairs : List (String × String) :=
  [("register", "registered"), ("login", "loggedin"),
   ("start_crosssign", "started_crosssign"),
   ("accept_crosssign", "accepted_crosssign"),
   ("verify_crosssign_emoji", "verified_crosssign"),
   ("create_room", "room_created"), ("send_message", "message_sent"),
   ("change_room_history_visibility", "changed"), ("invite_user", "invited")]

/-- A fully cooperative browser: every selector is found in time and every
XPath text lookup matches. -/
def allGood : Browser := { found := fun _ => true, xfound := fun _ => true }

/-- A browser in which no selector resolves: every waitForSelector times
out and every XPath lookup misses. -/
def badBrowser : Browser := { found := fun _ => false, xfound := fun _ => false }

/-- A browser in which every selector is found but the XPath text lookup of
the contains helper never matches. -/
def b9 : Browser := { found := fun _ => true, xfound := fun _ => false }

/-- A well-formed data bag used for concrete evaluations. -/
def sampleData : ActionData :=
  { homeserverLocal := "http://hs", username := "alice", password := "pw",
    name := "Test", topic := none, message := "hi",
    historyVisibility := "shared", user := "bob" }

/-- A poll cycle whose action is idle, everything healthy. -/
def cIdle : CycleInput :=
  { pollStatus := 200, action := some "idle", data := sampleData,
    browser := allGood, respondStatus := 200 }

/-- A poll cycle dispatching register against a browser whose lookups all
time out, so the dispatch raises. -/
def cRegisterBad : CycleInput :=
  { pollStatus := 200, action := some "register", data := sampleData,
    browser := badBrowser, respondStatus := 200 }

/-- A poll cycle whose action is exit. -/
def cExit : CycleInput :=
  { pollStatus := 200, action := some "exit", data := sampleData,
    browser := allGood, respondStatus := 200 }

/-- A poll cycle whose action name is unknown to the client. -/
def cFrob : CycleInput :=
  { pollStatus := 200, action := some "frobnicate", data := sampleData,
    browser := allGood, respondStatus := 200 }

/-- A poll cycle whose parsed body has no action field. -/
def cNoAction : CycleInput :=
  { pollStatus := 200, action := none, data := sampleData,
    browser := allGood, respondStatus := 200 }

/-- Under the fully cooperative browser every single step succeeds. -/
lemma execStep_allGood (s : Step) : ∃ evs, execStep allGood s = .ok evs := by
  cases s <;> exact ⟨_, rfl⟩

/-- Under the fully cooperative browser every script runs to completion. -/
lemma execSteps_allGood (steps : List Step) :
    ∃ evs, execSteps allGood steps = (.ok (), evs) := by
  induction steps with
  | nil => exact ⟨[], rfl⟩
  | cons s rest ih =>
      obtain ⟨evs, hs⟩ := execStep_allGood s
      obtain ⟨evs2, hr⟩ := ih
      exact ⟨evs ++ evs2, by simp [execSteps, hs, hr]⟩

/-- Under the fully cooperative browser dispatch returns exactly the token
of the matched case. -/
lemma dispatch_allGood (a : Option String) (d : ActionData) :
    (dispatch allGood a d).1 = .ok (runAction a d).2 := by
  obtain ⟨evs, h⟩ := execSteps_allGood (runAction a d).1
  simp [dispatch, h]

/-- A successful dispatch can only return the token of the matched case. -/
lemma dispatch_ok_result (b : Browser) (a : Option String) (d : ActionData)
    (r : Option String) (h : (dispatch b a d).1 = .ok r) :
    r = (runAction a d).2 := by
  unfold dispatch at h
  rcases hs : execSteps b (runAction a d).1 with ⟨er, evs⟩
  cases er with
  | ok u => simp [hs] at h; simp [h]
  | error e => simp [hs] at h

set_option maxHeartbeats 1600000 in
/-- No case of the switch returns the empty string as its token. -/
lemma runAction_snd_ne_empty (a : Option String) (d : ActionData) :
    (runAction a d).2 ≠ some "" := by
  unfold runAction
  split <;> simp

/-- The result caught in the loop body is never the empty string: a
successful dispatch yields a case token, a failed one the string error. -/
lemma caughtResult_ne_empty (b : Browser) (a : Option String) (d : ActionData) :
    caughtResult b a d ≠ some "" := by
  unfold caughtResult
  rcases hd : dispatch b a d with ⟨er, evs⟩
  cases er with
  | ok r =>
      have := dispatch_ok_result b a d r (by simp [hd])
      simpa [this] using runAction_snd_ne_empty a d
  | error e => simp

set_option maxHeartbeats 1600000 in
/-- An action name outside the ten dispatch cases takes the default branch:
an operator warning and no token. -/
lemma runAction_unknown (a : Option String) (d : ActionData)
    (h : ∀ s ∈ dispatchActions, a ≠ some s) :
    runAction a d = ([.warn a], none) := by
  have h1 := h "register" (by simp [dispatchActions])
  have h2 := h "login" (by simp [dispatchActions])
  have h3 := h "start_crosssign" (by simp [dispatchActions])
  have h4 := h "accept_crosssign" (by simp [dispatchActions])
  have h5 := h "verify_crosssign_emoji" (by simp [dispatchActions])
  have h6 := h "idle" (by simp [dispatchActions])
  have h7 := h "create_room" (by simp [dispatchActions])
  have h8 := h "send_message" (by simp [dispatchActions])
  have h9 := h "change_room_history_visibility" (by simp [dispatchActions])
  have h10 := h "invite_user" (by simp [dispatchActions])
  unfold runAction
  split
  all_goals first
    | rfl
    | (exact absurd rfl (by assumption))

/-- A raising dispatch is caught by the loop body as the result error. -/
lemma dispatch_error_caught (b : Browser) (a : Option String) (d : ActionData)
    (e : String) (h : (dispatch b a d).1 = .error e) :
    caughtResult b a d = some "error" := by
  unfold caughtResult
  rcases hd : dispatch b a d with ⟨er, evs⟩
  rw [hd] at h
  cases er <;> simp_all

/-- The idle case returns no token under any browser. -/
lemma caughtResult_idle (b : Browser) (d : ActionData) :
    caughtResult b (some "idle") d = none := rfl

/-- A missing action field takes the default branch of the switch. -/
lemma runAction_none (d : ActionData) :
    runAction none d = ([.warn none], none) := rfl

/-- A missing action field yields no token under any browser. -/
lemma caughtResult_none_action (b : Browser) (d : ActionData) :
    caughtResult b none d = none := rfl

/-- C1: in every poll cycle that is not an exit, the respond endpoint is
hit exactly once if the caught dispatch result is a non-absent string and
not at all if the result is absent. The dispatch result is never the empty
string (caughtResult_ne_empty), so non-absent and truthy coincide on every
reachable result. -/
theorem claim_C1_respond_iff_nonabsent (inp : CycleInput)
    (h200 : inp.pollStatus = 200) (hex : inp.action ≠ some "exit") :
    (respondCount (pollCycle inp).2 = 1 ↔
      caughtResult inp.browser inp.action inp.data ≠ none) ∧
    (caughtResult inp.browser inp.action inp.data = none →
      respondCount (pollCycle inp).2 = 0) := by
  have hne := caughtResult_ne_empty inp.browser inp.action inp.data
  rcases hc : caughtResult inp.browser inp.action inp.data with _ | s
  · simp [pollCycle, h200, hex, hc, truthy, respondCount]
  · have hs : s ≠ "" := fun h => hne (h ▸ hc)
    by_cases hr : inp.respondStatus = 200 <;>
      simp [pollCycle, h200, hex, hc, truthy, hs, hr, respondCount]

/-- Witness for C1 at the idle cycle: the result is absent and no respond
POST is made. -/
theorem claim_C1_witness : respondCount (pollCycle cIdle).2 = 0 :=
  (claim_C1_respond_iff_nonabsent cIdle rfl (by decide)).2 rfl

/-- C2: for a non-exit action whose dispatch raises, the error is caught in
the loop body, converted to the result string error and POSTed to respond;
the cycle ends with shouldExit false and the loop goes on to the next
poll. -/
theorem claim_C2_dispatch_error_recovered (inp : CycleInput)
    (rest : List CycleInput) (e : String)
    (h200 : inp.pollStatus = 200) (hex : inp.action ≠ some "exit")
    (herr : (dispatch inp.browser inp.action inp.data).1 = .error e)
    (hr : inp.respondStatus = 200) :
    pollCycle inp = (.ok false, [.poll, .dispatched inp.action, .respond "error"]) ∧
    pollLoop (inp :: rest) =
      ((pollLoop rest).1,
       [.poll, .dispatched inp.action, .respond "error"] ++ (pollLoop rest).2) := by
  have hc := dispatch_error_caught inp.browser inp.action inp.data e herr
  have hcy : pollCycle inp =
      (.ok false, [.poll, .dispatched inp.action, .respond "error"]) := by
    simp [pollCycle, h200, hex, hc, truthy, hr]
  refine ⟨hcy, ?_⟩
  rcases hl : pollLoop rest with ⟨r, evs⟩
  simp [pollLoop, hcy, hl]

/-- Witness for C2: a register dispatch against a browser whose first
selector lookup times out is reported as error and the loop continues. -/
theorem claim_C2_witness :
    pollCycle cRegisterBad =
      (.ok false, [.poll, .dispatched (some "register"), .respond "error"]) :=
  (claim_C2_dispatch_error_recovered cRegisterBad []
    "timeout waiting for .mx_ServerPicker_change" rfl (by decide) rfl rfl).1

/-- C3: a poll that returns exit ends the session at once: the cycle emits
no dispatch and no respond event, and the loop performs nothing further
whatever polls were still scripted. -/
theorem claim_C3_exit_immediate (inp : CycleInput) (rest : List CycleInput)
    (h200 : inp.pollStatus = 200) (hex : inp.action = some "exit") :
    pollCycle inp = (.ok true, [.poll]) ∧
    pollLoop (inp :: rest) = (.ok (), [.poll]) := by
  have hc : pollCycle inp = (.ok true, [.poll]) := by
    simp [pollCycle, h200, hex]
  exact ⟨hc, by simp [pollLoop, hc]⟩

/-- Witness for C3 at a concrete exit cycle. -/
theorem claim_C3_witness : pollLoop [cExit] = (.ok (), [.poll]) :=
  (claim_C3_exit_immediate cExit [] rfl rfl).2

set_option maxHeartbeats 1600000 in
/-- C4: with well-formed data and a cooperative browser, every supported
action dispatches to its fixed non-absent completion token, idle dispatches
to the absent result, and the nine tokens are pairwise distinct. -/
theorem claim_C4_tokens_fixed_injective (d : ActionData) :
    (∀ p ∈ supportedPairs, (dispatch allGood (some p.1) d).1 = .ok (some p.2)) ∧
    (dispatch allGood (some "idle") d).1 = .ok none ∧
    (supportedPairs.map Prod.snd).Nodup := by
  refine ⟨?_, ?_, by decide⟩
  · intro p hp
    fin_cases hp <;> (rw [dispatch_allGood]; rfl)
  · rw [dispatch_allGood]
    rfl

/-- Witness for C4 at the register action with concrete data. -/
theorem claim_C4_witness :
    (dispatch allGood (some "register") sampleData).1 = .ok (some "registered") :=
  (claim_C4_tokens_fixed_injective sampleData).1 ("register", "registered") (by decide)

/-- C5: an action name outside the protocol set performs no browser
operation (its only event is the operator warning), returns the absent
result, triggers no respond POST, and the loop proceeds directly to the
next poll. -/
theorem claim_C5_unknown_action_ignored (a : String) (d : ActionData)
    (b : Browser) (inp : CycleInput) (rest : List CycleInput)
    (ha : a ∉ protocolActions)
    (h200 : inp.pollStatus = 200) (hact : inp.action = some a) :
    runAction (some a) d = ([.warn (some a)], none) ∧
    dispatch b (some a) d = (.ok none, [.warn (some a)]) ∧
    pollCycle inp = (.ok false, [.poll, .dispatched (some a)]) ∧
    pollLoop (inp :: rest) =
      ((pollLoop rest).1, [.poll, .dispatched (some a)] ++ (pollLoop rest).2) := by
  have h' : ∀ s ∈ dispatchActions, (some a : Option String) ≠ some s := by
    intro s hs heq
    injection heq with heq
    subst heq
    exact ha (by simp [protocolActions]; exact Or.inl hs)
  have hae : (some a : Option String) ≠ some "exit" := by
    intro h
    injection h with h
    exact ha (by simp [protocolActions, h])
  have hu : ∀ d' : ActionData, runAction (some a) d' = ([.warn (some a)], none) :=
    fun d' => runAction_unknown (some a) d' h'
  have hdis : ∀ (b' : Browser) (d' : ActionData),
      dispatch b' (some a) d' = (.ok none, [.warn (some a)]) := by
    intro b' d'
    simp [dispatch, hu d', execSteps, execStep]
  have hcr : caughtResult inp.browser (some a) inp.data = none := by
    simp [caughtResult, hdis]
  have hcy : pollCycle inp = (.ok false, [.poll, .dispatched (some a)]) := by
    simp [pollCycle, h200, hact, hae, hcr, truthy]
  refine ⟨hu d, hdis b d, hcy, ?_⟩
  rcases hl : pollLoop rest with ⟨r, evs⟩
  simp [pollLoop, hcy, hl]

/-- Witness for C5 at the action frobnicate. -/
theorem claim_C5_witness :
    pollCycle cFrob = (.ok false, [.poll, .dispatched (some "frobnicate")]) :=
  (claim_C5_unknown_action_ignored "frobnicate" sampleData allGood cFrob []
    (by decide) rfl rfl).2.2.1

/-- C6: both register variants POST the same JSON body of type element-web
and version UNKNOWN to the register endpoint of the session, succeed exactly
on HTTP 200, and on any other status fail with a RegistrationError carrying
that status. -/
theorem claim_C6_register_status (u i : String) (status : Nat) :
    registerRequest u i =
      { url := u ++ "/client/" ++ i ++ "/register", method := "POST",
        bodyType := "element-web", bodyVersion := "UNKNOWN" } ∧
    setupRequest u i = registerRequest u i ∧
    (registerAsClient status = .ok () ↔ status = 200) ∧
    (status ≠ 200 → registerAsClient status = .error (.badStatus status)) ∧
    setupPromise status = registerAsClient status := by
  refine ⟨rfl, rfl, ?_, ?_, rfl⟩
  · by_cases h : status = 200 <;> simp [registerAsClient, h]
  · intro h
    simp [registerAsClient, h]

/-- Witness for C6 at HTTP status 500. -/
theorem claim_C6_witness :
    registerAsClient 500 = .error (.badStatus 500) :=
  (claim_C6_register_status "http://tl" "u1" 500).2.2.2.1 (by decide)

/-- C7: an idle cycle and an unknown-action cycle are observably identical
to the control server: both dispatch results are absent, neither cycle
POSTs a respond, both cycles end with shouldExit false, and the
server-visible event lists coincide. -/
theorem claim_C7_idle_unknown_indistinguishable (i1 i2 : CycleInput) (a : String)
    (h1 : i1.pollStatus = 200) (h2 : i2.pollStatus = 200)
    (ha1 : i1.action = some "idle") (ha2 : i2.action = some a)
    (hu : a ∉ protocolActions) :
    caughtResult i1.browser i1.action i1.data = none ∧
    caughtResult i2.browser i2.action i2.data = none ∧
    (pollCycle i1).1 = .ok false ∧ (pollCycle i2).1 = .ok false ∧
    respondCount (pollCycle i1).2 = 0 ∧ respondCount (pollCycle i2).2 = 0 ∧
    serverView (pollCycle i1).2 = serverView (pollCycle i2).2 := by
  have h' : ∀ s ∈ dispatchActions, (some a : Option String) ≠ some s := by
    intro s hs heq
    injection heq with heq
    subst heq
    exact hu (by simp [protocolActions]; exact Or.inl hs)
  have hae : (some a : Option String) ≠ some "exit" := by
    intro h
    injection h with h
    exact hu (by simp [protocolActions, h])
  have hc1 : caughtResult i1.browser (some "idle") i1.data = none :=
    caughtResult_idle _ _
  have hc2 : caughtResult i2.browser (some a) i2.data = none := by
    simp [caughtResult, dispatch, runAction_unknown (some a) i2.data h',
      execSteps, execStep]
  have hcy1 : pollCycle i1 = (.ok false, [.poll, .dispatched (some "idle")]) := by
    simp [pollCycle, h1, ha1, hc1, truthy]
  have hcy2 : pollCycle i2 = (.ok false, [.poll, .dispatched (some a)]) := by
    simp [pollCycle, h2, ha2, hae, hc2, truthy]
  have hc1x : caughtResult i1.browser i1.action i1.data = none := by
    rw [ha1]; exact hc1
  have hc2x : caughtResult i2.browser i2.action i2.data = none := by
    rw [ha2]; exact hc2
  refine ⟨hc1x, hc2x, ?_, ?_, ?_, ?_, ?_⟩ <;>
    simp [hcy1, hcy2, respondCount, serverView]

/-- Witness for C7: the idle cycle and the frobnicate cycle look the same
to the server. -/
theorem claim_C7_witness :
    serverView (pollCycle cIdle).2 = serverView (pollCycle cFrob).2 :=
  (claim_C7_idle_unknown_indistinguishable cIdle cFrob "frobnicate"
    rfl rfl rfl rfl (by decide)).2.2.2.2.2.2

/-- C8: any first argument other than run and open makes the launcher print
its diagnostic and exit the process with code 1; no run-forever loop and no
one-shot session is started. -/
theorem claim_C8_bad_argument_exits (a : String) (rest : List String)
    (h1 : a ≠ "run") (h2 : a ≠ "open") :
    launcherMain (a :: rest) =
      .exitCode 1 ("No idea what " ++ a ++
        "means (i understand \"run\" to run continually, \"open\" to launch the UI)") := by
  simp [launcherMain, h1, h2]

/-- Witness for C8 at the argument frobnicate. -/
theorem claim_C8_witness :
    launcherMain ["frobnicate"] =
      .exitCode 1 ("No idea what " ++ "frobnicate" ++
        "means (i understand \"run\" to run continually, \"open\" to launch the UI)") :=
  claim_C8_bad_argument_exits "frobnicate" [] (by decide) (by decide)

set_option maxHeartbeats 1600000 in
/-- C9: the click and type helpers do nothing when handed a null element,
so when the XPath lookup of the contains helper matches nothing the
create_room case still completes and returns room_created with its New
room menu click silently skipped. -/
theorem claim_C9_null_element_skipped :
    clickEl none = [] ∧
    (∀ text enter, typeEl text none enter = []) ∧
    (dispatch b9 (some "create_room") sampleData).1 = .ok (some "room_created") ∧
    Ev.xlookup "New room" ∈ (dispatch b9 (some "create_room") sampleData).2 ∧
    Ev.click "contains:New room" ∉ (dispatch b9 (some "create_room") sampleData).2 := by
  refine ⟨rfl, fun text enter => rfl, ?_, ?_, ?_⟩ <;> decide

/-- C10: a poll body that parses but has no action field is not a poll
error: the undefined action falls through to the default dispatch branch
(warning, absent result), no respond POST is made, and the loop moves on
to the next poll. -/
theorem claim_C10_missing_action_field (inp : CycleInput)
    (rest : List CycleInput)
    (h200 : inp.pollStatus = 200) (hact : inp.action = none) :
    runAction none inp.data = ([.warn none], none) ∧
    pollCycle inp = (.ok false, [.poll, .dispatched none]) ∧
    pollLoop (inp :: rest) =
      ((pollLoop rest).1, [.poll, .dispatched none] ++ (pollLoop rest).2) := by
  have hcy : pollCycle inp = (.ok false, [.poll, .dispatched none]) := by
    simp [pollCycle, h200, hact, caughtResult_none_action, truthy]
  refine ⟨runAction_none inp.data, hcy, ?_⟩
  rcases hl : pollLoop rest with ⟨r, evs⟩
  simp [pollLoop, hcy, hl]

/-- Witness for C10 at a concrete cycle with no action field. -/
theorem claim_C10_witness :
    pollCycle cNoAction = (.ok false, [.poll, .dispatched none]) :=
  (claim_C10_missing_action_field cNoAction [] rfl rfl).2.1
